import Mathlib

/-!
Verification development for the libbsp Quake BSP loader (src/libbsp/src/libbsp/bsp.c).

The definitions below are a shallow embedding of the loader.  A byte stream is a
`List Nat` of byte values; a reader observes only the stream length for
fixed-record lumps (their decoded field values are irrelevant to the properties
below, only element counts matter), while the entities and miptexture readers
look at the actual bytes.  The caller-supplied allocator is modelled as a pure
predicate `alloc : Nat -> Bool` saying whether a request of that many bytes is
granted.  Each reader result carries the number of allocations that were
granted while it ran, mirroring the paired alloc/free bookkeeping the spec
talks about.  C behaviour that is undefined (dereferencing a null pointer,
reading out of the bounds of a buffer) is modelled by the explicit outcome
`R.ub`.
-/

set_option maxRecDepth 100000

namespace LibBSP

/-- Outcome of a decoding step: success with a value and the number of granted
allocations, failure (the C function returned 0) with the number of granted
allocations, undefined behaviour, or fuel exhaustion of the bounded parser
model (never reached with adequate fuel). -/
inductive R (α : Type) where
  | ok (val : α) (allocs : Nat)
  | fail (allocs : Nat)
  | ub
  | spin
deriving DecidableEq

/-- True exactly on the failure outcome. -/
def R.isFail {α : Type} : R α → Bool
  | .fail _ => true
  | _ => false

/-- One header lump descriptor: a signed byte offset and signed byte length,
exactly the two int32 fields of `bsp_lump_t`. -/
structure Lump where
  offset : Int
  length : Int
deriving DecidableEq

/-- Value of the signed little-endian 32-bit integer with the given four bytes,
as read by the loader on a little-endian machine. -/
def int32OfBytes (b0 b1 b2 b3 : Nat) : Int :=
  if b0 % 256 + 256 * (b1 % 256) + 65536 * (b2 % 256) + 16777216 * (b3 % 256) < 2147483648 then
    ((b0 % 256 + 256 * (b1 % 256) + 65536 * (b2 % 256) + 16777216 * (b3 % 256) : Nat) : Int)
  else
    ((b0 % 256 + 256 * (b1 % 256) + 65536 * (b2 % 256) + 16777216 * (b3 % 256) : Nat) : Int) -
      4294967296

/-- Signed 32-bit integer stored at byte position `i` of the stream
(bytes past the end read as zero; callers bound `i` by the stream length). -/
def int32At (s : List Nat) (i : Nat) : Int :=
  int32OfBytes (s.getD i 0) (s.getD (i + 1) 0) (s.getD (i + 2) 0) (s.getD (i + 3) 0)

/-- The `k`-th lump descriptor of the header, as laid out in `bsp_header_t`:
a 4-byte version, then 15 pairs of int32 offset and int32 length. -/
def lumpAt (s : List Nat) (k : Nat) : Lump :=
  { offset := int32At s (4 + 8 * k), length := int32At s (8 + 8 * k) }

/-- The supported format version, `BSP_VERSION`. -/
def bspVersion : Int := 29

/-- Byte size of `bsp_header_t`: the int32 version plus 15 lump descriptors. -/
def headerSize : Nat := 124

/-- Record sizes (in bytes) of the fixed-record lump structs, with no padding
as laid out on a typical ABI. -/
def planeRecordSize : Nat := 20

/-- Byte size of `bsp_vertex_t`. -/
def vertexRecordSize : Nat := 12

/-- Byte size of `bsp_node_t`. -/
def nodeRecordSize : Nat := 24

/-- Byte size of `bsp_texinfo_t`. -/
def texinfoRecordSize : Nat := 40

/-- Byte size of `bsp_face_t`. -/
def faceRecordSize : Nat := 20

/-- Byte size of `bsp_clipnode_t`. -/
def clipnodeRecordSize : Nat := 8

/-- Byte size of `bsp_leaf_t`. -/
def leafRecordSize : Nat := 24

/-- Byte size of a facelist element (int16). -/
def facelistRecordSize : Nat := 2

/-- Byte size of `bsp_edge_t`. -/
def edgeRecordSize : Nat := 4

/-- Byte size of a surfedge element (int32). -/
def surfedgeRecordSize : Nat := 4

/-- Byte size of `bsp_model_t`. -/
def modelRecordSize : Nat := 60

/-- Byte size of the `bsp_miptex_t` texture header. -/
def miptexHeaderSize : Nat := 40

/-- Shared shape of the eleven fixed-record lump decoders (`read_planes`,
`read_vertices`, ..., `read_models`): a non-positive length yields the empty
result; otherwise `seek_lump` fails on a negative offset; `count` is the
truncating division of the length by the record size; `alloc_array` allocates
nothing when the count is zero and `read_exact` of zero bytes succeeds;
otherwise one allocation of `count * rs` bytes is made and `read_exact`
succeeds exactly when that many bytes exist at the lump's offset. -/
def read_fixed (alloc : Nat → Bool) (rs : Nat) (streamLen : Nat) (l : Lump) : R Nat :=
  if l.length ≤ 0 then .ok 0 0
  else if l.offset < 0 then .fail 0
  else if l.length.toNat / rs = 0 then .ok 0 0
  else if ¬ alloc (l.length.toNat / rs * rs) then .fail 0
  else if l.offset.toNat + l.length.toNat / rs * rs ≤ streamLen then .ok (l.length.toNat / rs) 1
  else .fail 1

/-- Shared shape of the raw blob readers `read_visdata` and `read_lighting`:
non-positive length yields an empty buffer, otherwise the whole declared
length is allocated and read in one `read_exact` pass. -/
def read_blob (alloc : Nat → Bool) (streamLen : Nat) (l : Lump) : R Nat :=
  if l.length ≤ 0 then .ok 0 0
  else if l.offset < 0 then .fail 0
  else if ¬ alloc l.length.toNat then .fail 0
  else if l.offset.toNat + l.length.toNat ≤ streamLen then .ok l.length.toNat 1
  else .fail 1

/-! ## Entity text parser

The entities lump is read into a `length + 1` byte buffer with a terminating
NUL byte and walked with a char pointer.  The buffer is modelled as a
`List Char` holding exactly the lump's bytes; the current pointer is the
remaining suffix, and the terminating NUL corresponds to the empty suffix.
A NUL byte embedded in the lump bytes appears as `Char.ofNat 0` inside the
list and stops scans exactly as the C code's checks of the current character
against zero do. -/

/-- The double-quote character that delimits entity strings. -/
def quoteChar : Char := Char.ofNat 34

/-- The opening-brace character of an entity block. -/
def lbraceChar : Char := Char.ofNat 123

/-- The closing-brace character of an entity block. -/
def rbraceChar : Char := Char.ofNat 125

/-- The NUL character; an embedded zero byte of the entities lump. -/
def nulChar : Char := Char.ofNat 0

/-- The characters accepted by C `isspace` in the default locale, as used by
`skip_whitespace`. -/
def isSpaceC (c : Char) : Bool :=
  c = Char.ofNat 32 || c = Char.ofNat 9 || c = Char.ofNat 10 ||
  c = Char.ofNat 11 || c = Char.ofNat 12 || c = Char.ofNat 13

/-- The `skip_whitespace` helper: advance while the current character is
nonzero whitespace (`isspace` is false on NUL, so stopping on NUL is the
same as stopping when the predicate fails). -/
def skip_whitespace (p : List Char) : List Char :=
  p.dropWhile isSpaceC

/-- The `parse_string` helper.  It returns the parsed string and the pointer
just past the closing quote, or `none` wherever the C function returns NULL:
the next non-whitespace character is not a double quote (this includes
hitting the terminating or an embedded NUL), the scan for the closing quote
hits the end of the buffer or an embedded NUL, or the string allocation of
`len + 1` bytes is refused. -/
def parse_string (alloc : Nat → Bool) (p : List Char) : Option (String × List Char) :=
  let q := skip_whitespace p
  match q with
  | [] => none
  | c :: rest =>
    if c ≠ quoteChar then none
    else
      let content := rest.takeWhile (fun ch => ch != nulChar && ch != quoteChar)
      let rest2 := rest.dropWhile (fun ch => ch != nulChar && ch != quoteChar)
      match rest2 with
      | [] => none
      | ch :: after =>
        if ch = nulChar then none
        else if alloc (content.length + 1) then some (String.mk content, after) else none

/-- Outcome of the inner key/value loop of one entity block. -/
inductive BlockRes where
  | done (p : List Char) (props : List (String × String)) (ac : Nat)
  | hardfail (ac : Nat)
  | ub
  | spin
deriving DecidableEq

/-- The inner loop of `read_entities` for one block: while the current
character is neither NUL nor a closing brace, parse a key string and a value
string and append the pair.  When `parse_string` returns NULL the C code
breaks out of the loop with the pointer variable itself NULL and then
evaluates that pointer's character in the trailing closing-brace test, a null
dereference, modelled as `BlockRes.ub`.  Property storage doubles its
capacity with a fresh allocation when full (a refusal frees the text buffer
and makes `read_entities` return 0, `BlockRes.hardfail`); appending while the
initial property `calloc` had been refused writes through a null array,
also undefined behaviour.  On a normal exit the closing brace, if present,
is consumed.  `ac` counts granted allocations; `fuel` only bounds the
recursion and is chosen large enough by the caller. -/
def parse_block (alloc : Nat → Bool) : Nat → List Char → List (String × String) → Nat → Nat → Bool → BlockRes
  | 0, _, _, _, _, _ => .spin
  | Nat.succ fuel, p, props, cap, ac, propsOk =>
    match p with
    | [] => .done [] props ac
    | c :: rest =>
      if c = nulChar then .done (c :: rest) props ac
      else if c = rbraceChar then .done rest props ac
      else
        match parse_string alloc (c :: rest) with
        | none => .ub
        | some (key, p1) =>
          match parse_string alloc p1 with
          | none => .ub
          | some (val, p2) =>
            if cap ≤ props.length then
              if alloc (cap * 2 * 16) then
                parse_block alloc fuel (skip_whitespace p2) (props ++ [(key, val)]) (cap * 2) (ac + 3) true
              else .hardfail (ac + 2)
            else if propsOk then
              parse_block alloc fuel (skip_whitespace p2) (props ++ [(key, val)]) cap (ac + 2) propsOk
            else .ub

/-- Outcome of the outer entity scanning loop. -/
inductive EntsRes where
  | ok (ents : List (List (String × String))) (ac : Nat)
  | hardfail (ac : Nat)
  | ub
  | spin
deriving DecidableEq

/-- The outer loop of `read_entities`: while the current character is
nonzero, skip whitespace; an opening brace starts a block (growing the
entity array by doubling when full, with a refusal aborting the load, and
dereferencing a null entity array being undefined behaviour); any other
character is stepped over.  Stepping over the character requires one more
dereference of the advanced pointer by the loop condition: when the
whitespace skip stopped at the terminating NUL, that dereference reads one
byte past the end of the text buffer, modelled as `EntsRes.ub`.  An embedded
NUL is an ordinary nonzero-position character here: the loop condition stops
on it, but stepping over it from a whitespace run continues inside the
buffer. -/
def parse_ents (alloc : Nat → Bool) : Nat → List Char → List (List (String × String)) → Nat → Nat → Bool → EntsRes
  | 0, _, _, _, _, _ => .spin
  | Nat.succ fuel, p, ents, cap, ac, entsOk =>
    match p with
    | [] => .ok ents ac
    | c :: rest =>
      if c = nulChar then .ok ents ac
      else
        match skip_whitespace (c :: rest) with
        | [] => .ub
        | d :: qrest =>
          if d = lbraceChar then
            if cap ≤ ents.length then
              if alloc (cap * 2 * 16) then
                match parse_block alloc fuel qrest [] 8 ((ac + 1) + (if alloc 128 then 1 else 0)) (alloc 128) with
                | .done p2 props ac2 => parse_ents alloc fuel p2 (ents ++ [props]) (cap * 2) ac2 true
                | .hardfail a => .hardfail a
                | .ub => .ub
                | .spin => .spin
              else .hardfail ac
            else if entsOk then
              match parse_block alloc fuel qrest [] 8 (ac + (if alloc 128 then 1 else 0)) (alloc 128) with
              | .done p2 props ac2 => parse_ents alloc fuel p2 (ents ++ [props]) cap ac2 entsOk
              | .hardfail a => .hardfail a
              | .ub => .ub
              | .spin => .spin
            else .ub
          else parse_ents alloc fuel qrest ents cap ac entsOk

/-- The `read_entities` decoder: a non-positive length stores no entities and
succeeds; otherwise the text buffer of `length + 1` bytes is allocated and
filled by `read_exact` (a short stream frees the buffer and fails), the
initial entity array of 16 records is `calloc`ed (unchecked in the C code),
and the text is scanned by the loops above.  The text buffer is freed on
every exit, so it never contributes to the surviving allocation count; the
granted-allocation count still includes it because the counts record
allocator grants, not live blocks. -/
def read_entities (alloc : Nat → Bool) (stream : List Nat) (l : Lump) : R (List (List (String × String))) :=
  if l.length ≤ 0 then .ok [] 0
  else if l.offset < 0 then .fail 0
  else if ¬ alloc (l.length.toNat + 1) then .fail 0
  else if stream.length < l.offset.toNat + l.length.toNat then .fail 1
  else
    let text := ((stream.drop l.offset.toNat).take l.length.toNat).map Char.ofNat
    match parse_ents alloc (text.length + 2) text [] 16 (if alloc 256 then 2 else 1) (alloc 256) with
    | .ok ents ac => .ok ents ac
    | .hardfail ac => .fail ac
    | .ub => .ub
    | .spin => .spin

/-! ## Miptexture directory resolver -/

/-- The value of an int32 converted to `size_t` on a 64-bit machine: reduction
modulo 2^64, which sends a negative count to a number close to 2^64. -/
def usize (n : Int) : Nat := (n % (18446744073709551616 : Int)).toNat

/-- Decode `k` consecutive little-endian int32 values from a byte list
(callers supply at least `4 * k` bytes). -/
def read_int32s : Nat → List Nat → List Int
  | 0, _ => []
  | Nat.succ k, b0 :: b1 :: b2 :: b3 :: rest => int32OfBytes b0 b1 b2 b3 :: read_int32s k rest
  | Nat.succ _, _ => []

/-- Resolution of one directory offset into an optional aliasing view,
exactly the checks of the loop in `read_miptex`: absent when the offset is
non-positive, at or past the end of the raw blob, or when the fixed-size
texture header starting there would extend past the blob's end; otherwise
the view is the in-place byte position inside the blob. -/
def resolve_view (rawSize : Nat) (off : Int) : Option Nat :=
  if off ≤ 0 then none
  else if rawSize ≤ off.toNat then none
  else if rawSize < off.toNat + miptexHeaderSize then none
  else some off.toNat

/-- The decoded miptexture lump: the signed directory count, the directory
offsets, the per-slot optional views and the raw blob size. -/
structure MiptexDir where
  nummiptex : Int
  offsets : List Int
  views : List (Option Nat)
  rawSize : Nat
deriving DecidableEq

/-- The empty miptexture result stored for an absent lump. -/
def emptyMiptex : MiptexDir := { nummiptex := 0, offsets := [], views := [], rawSize := 0 }

/-- The directory phase of `read_miptex`, operating on the raw blob already
read into memory: fail if the blob is shorter than 4 bytes; read the signed
count; compute the directory size `4 + (size_t)count * 4` in wrapping
`size_t` arithmetic and fail if the blob is shorter; allocate the offset
array (`(size_t)count * 4` bytes, checked only when the count is nonzero)
and copy the offsets out of the blob — a copy longer than the bytes
following the count field reads past the blob, undefined behaviour;
allocate the view pointer array and resolve every offset, never failing on
an individual bad offset. -/
def miptex_dir_phase (alloc : Nat → Bool) (raw : List Nat) : R MiptexDir :=
  if raw.length < 4 then .fail 0
  else if raw.length < (4 + usize (int32At raw 0) * 4 % 18446744073709551616) % 18446744073709551616 then .fail 0
  else if ¬ alloc (usize (int32At raw 0) * 4 % 18446744073709551616) ∧ int32At raw 0 ≠ 0 then .fail 0
  else if raw.length - 4 < usize (int32At raw 0) * 4 % 18446744073709551616 then .ub
  else if ¬ alloc (usize (int32At raw 0) * 8 % 18446744073709551616) ∧ int32At raw 0 ≠ 0 then
    .fail (if alloc (usize (int32At raw 0) * 4 % 18446744073709551616) then 1 else 0)
  else
    .ok { nummiptex := int32At raw 0,
          offsets := read_int32s (int32At raw 0).toNat (raw.drop 4),
          views := (read_int32s (int32At raw 0).toNat (raw.drop 4)).map (resolve_view raw.length),
          rawSize := raw.length }
      ((if alloc (usize (int32At raw 0) * 4 % 18446744073709551616) then 1 else 0) +
       (if alloc (usize (int32At raw 0) * 8 % 18446744073709551616) then 1 else 0))

/-- The `read_miptex` decoder: a non-positive length stores the empty
directory; otherwise the whole lump is read into an owned raw blob and the
directory phase above interprets it. -/
def read_miptex (alloc : Nat → Bool) (stream : List Nat) (l : Lump) : R MiptexDir :=
  if l.length ≤ 0 then .ok emptyMiptex 0
  else if l.offset < 0 then .fail 0
  else if ¬ alloc l.length.toNat then .fail 0
  else if stream.length < l.offset.toNat + l.length.toNat then .fail 1
  else
    match miptex_dir_phase alloc ((stream.drop l.offset.toNat).take l.length.toNat) with
    | .ok d a => .ok d (1 + a)
    | .fail a => .fail (1 + a)
    | .ub => .ub
    | .spin => .spin

/-! ## Load orchestrator -/

/-- The fully decoded level: the entity list and, for every other lump, the
observable size information (element counts and blob sizes). -/
structure LoadedBSP where
  entities : List (List (String × String))
  numPlanes : Nat
  miptex : MiptexDir
  numVertices : Nat
  visdataSize : Nat
  numNodes : Nat
  numTexinfo : Nat
  numFaces : Nat
  lightingSize : Nat
  numClipnodes : Nat
  numLeaves : Nat
  facelistCount : Nat
  numEdges : Nat
  surfedgesCount : Nat
  numModels : Nat
deriving DecidableEq

/-- Sequencing of decoding steps: failure, undefined behaviour and fuel
exhaustion abort the remaining steps, as each failing reader makes
`bsp_load_file` clean up and return 0. -/
def rbind {α β : Type} (x : R α) (f : α → Nat → R β) : R β :=
  match x with
  | .ok v a => f v a
  | .fail a => .fail a
  | .ub => .ub
  | .spin => .spin

/-- Add the allocations granted by the steps already executed to the outcome
of the remaining steps, so that an aborted load still reports everything the
allocator granted before the abort. -/
def addAllocs {α : Type} (k : Nat) : R α → R α
  | .ok v a => .ok v (k + a)
  | .fail a => .fail (k + a)
  | .ub => .ub
  | .spin => .spin

/-- The `bsp_load_file` orchestrator: read the 124-byte header from the start
of the stream (failing on a short stream), fail immediately when the version
differs from the supported constant 29, then run the fifteen lump decoders in
directory order, aborting on the first failure.  The result reports the
total number of allocator grants issued during the call. -/
def bsp_load (alloc : Nat → Bool) (stream : List Nat) : R LoadedBSP :=
  if stream.length < headerSize then .fail 0
  else if int32At stream 0 ≠ bspVersion then .fail 0
  else
    rbind (read_entities alloc stream (lumpAt stream 0)) (fun ents a0 => addAllocs a0 (
    rbind (read_fixed alloc planeRecordSize stream.length (lumpAt stream 1)) (fun nPlanes a1 => addAllocs a1 (
    rbind (read_miptex alloc stream (lumpAt stream 2)) (fun mt a2 => addAllocs a2 (
    rbind (read_fixed alloc vertexRecordSize stream.length (lumpAt stream 3)) (fun nVerts a3 => addAllocs a3 (
    rbind (read_blob alloc stream.length (lumpAt stream 4)) (fun visSz a4 => addAllocs a4 (
    rbind (read_fixed alloc nodeRecordSize stream.length (lumpAt stream 5)) (fun nNodes a5 => addAllocs a5 (
    rbind (read_fixed alloc texinfoRecordSize stream.length (lumpAt stream 6)) (fun nTex a6 => addAllocs a6 (
    rbind (read_fixed alloc faceRecordSize stream.length (lumpAt stream 7)) (fun nFaces a7 => addAllocs a7 (
    rbind (read_blob alloc stream.length (lumpAt stream 8)) (fun lightSz a8 => addAllocs a8 (
    rbind (read_fixed alloc clipnodeRecordSize stream.length (lumpAt stream 9)) (fun nClip a9 => addAllocs a9 (
    rbind (read_fixed alloc leafRecordSize stream.length (lumpAt stream 10)) (fun nLeaves a10 => addAllocs a10 (
    rbind (read_fixed alloc facelistRecordSize stream.length (lumpAt stream 11)) (fun nFl a11 => addAllocs a11 (
    rbind (read_fixed alloc edgeRecordSize stream.length (lumpAt stream 12)) (fun nEdges a12 => addAllocs a12 (
    rbind (read_fixed alloc surfedgeRecordSize stream.length (lumpAt stream 13)) (fun nSurf a13 => addAllocs a13 (
    rbind (read_fixed alloc modelRecordSize stream.length (lumpAt stream 14)) (fun nModels a14 => addAllocs a14 (
    .ok { entities := ents, numPlanes := nPlanes, miptex := mt, numVertices := nVerts,
          visdataSize := visSz, numNodes := nNodes, numTexinfo := nTex, numFaces := nFaces,
          lightingSize := lightSz, numClipnodes := nClip, numLeaves := nLeaves,
          facelistCount := nFl, numEdges := nEdges, surfedgesCount := nSurf,
          numModels := nModels } 0))))))))))))))))))))))))))))))

/-! ## Accessor surface -/

/-- The linear first-match scan of `bsp_entity_get_property` over one
entity's property pairs.  Keys are the non-null strings produced by
`parse_string`, so the C code's null-key guard never skips an entry. -/
def getPropLoop : List (String × String) → String → Option String
  | [], _ => none
  | pr :: rest, k => if pr.1 = k then some pr.2 else getPropLoop rest k

/-- The `bsp_entity_get_property` accessor: null result for an out-of-range
entity index, otherwise the value of the first property whose key compares
equal to the requested key, or null when none does. -/
def bsp_entity_get_property (b : LoadedBSP) (i : Nat) (k : String) : Option String :=
  match b.entities.get? i with
  | none => none
  | some props => getPropLoop props k

/-! ## Teardown model

`bsp_cleanup` walks the owned pointer fields of `bsp_t` and passes each
non-null one to the caller's free function.  `free_entities` resets the
entity pointer and count to null/zero afterwards, but no other field is
reset.  The fields are modelled as optional allocation identities; a
cleanup returns the list of identities passed to free, in source order,
together with the state left behind. -/

/-- The owned pointer fields of `bsp_t`, each `none` (null) or `some id` for
the identity of the allocation it points to. -/
structure AllocState where
  entities : Option Nat
  planes : Option Nat
  miptex_raw : Option Nat
  miptex_offsets : Option Nat
  miptex : Option Nat
  vertices : Option Nat
  visdata : Option Nat
  nodes : Option Nat
  texinfo : Option Nat
  faces : Option Nat
  lighting : Option Nat
  clipnodes : Option Nat
  leaves : Option Nat
  facelist : Option Nat
  edges : Option Nat
  surfedges : Option Nat
  models : Option Nat
deriving DecidableEq

/-- The all-null state of a freshly created `bsp_t` (it is zeroed by
`bsp_create`). -/
def initState : AllocState :=
  { entities := none, planes := none, miptex_raw := none, miptex_offsets := none,
    miptex := none, vertices := none, visdata := none, nodes := none, texinfo := none,
    faces := none, lighting := none, clipnodes := none, leaves := none, facelist := none,
    edges := none, surfedges := none, models := none }

/-- The identities held by the pointer fields, in the order `bsp_cleanup`
frees them. -/
def heldIds (s : AllocState) : List Nat :=
  s.entities.toList ++ s.planes.toList ++ s.miptex_raw.toList ++ s.miptex_offsets.toList ++
  s.miptex.toList ++ s.vertices.toList ++ s.visdata.toList ++ s.nodes.toList ++
  s.texinfo.toList ++ s.faces.toList ++ s.lighting.toList ++ s.clipnodes.toList ++
  s.leaves.toList ++ s.facelist.toList ++ s.edges.toList ++ s.surfedges.toList ++
  s.models.toList

/-- The `bsp_cleanup` teardown: every non-null field is freed
(`bsp_free_ptr` skips null pointers); `free_entities` nulls the entity
field, while all other fields keep their now-dangling pointers. -/
def bsp_cleanup (s : AllocState) : List Nat × AllocState :=
  (heldIds s, { s with entities := none })

/-- The frees performed when a load fails (so `bsp_load_file` runs
`bsp_cleanup` and returns 0) and the caller afterwards destroys the
`bsp_t` with `bsp_destroy`, which runs `bsp_cleanup` again. -/
def load_fail_then_destroy_frees (s : AllocState) : List Nat :=
  (bsp_cleanup s).1 ++ (bsp_cleanup (bsp_cleanup s).2).1

/-- Effect of `read_planes` on the planes pointer field, with the allocator
granting the array: the field receives the fresh allocation before
`read_exact` runs, so it is already set when a truncated stream makes the
reader fail. -/
def read_planes_state (streamLen : Nat) (l : Lump) (s : AllocState) (id : Nat) : Bool × AllocState :=
  if l.length ≤ 0 then (true, s)
  else if l.offset < 0 then (false, s)
  else
    let count := l.length.toNat / planeRecordSize
    if count = 0 then (true, s)
    else
      let s1 := { s with planes := some id }
      if l.offset.toNat + count * planeRecordSize ≤ streamLen then (true, s1) else (false, s1)

/-! ## Concrete inputs used by the theorems below -/

/-- The allocator that grants every request. -/
def grantAll : Nat → Bool := fun _ => true

/-- A stream holding only a valid header: version 29 and fifteen
all-zero lump descriptors. -/
def okStream : List Nat := [29, 0, 0, 0] ++ List.replicate 120 0

/-- A header whose version field is 30 instead of 29. -/
def badVerStream : List Nat := [30, 0, 0, 0] ++ List.replicate 120 0

/-- A valid version-29 header whose planes descriptor has offset 0 and
length -4, every other descriptor zero. -/
def negLenStream : List Nat :=
  [29, 0, 0, 0] ++ List.replicate 12 0 ++ [252, 255, 255, 255] ++ List.replicate 104 0

/-- A valid version-29 header whose planes descriptor has offset -1 and
length 20, every other descriptor zero. -/
def negOffStream : List Nat :=
  [29, 0, 0, 0] ++ List.replicate 8 0 ++ [255, 255, 255, 255, 20, 0, 0, 0] ++ List.replicate 104 0

/-- A valid version-29 header whose miptexture descriptor points at an
8-byte lump at offset 124 whose directory count decodes to -1. -/
def negMiptexStream : List Nat :=
  [29, 0, 0, 0] ++ List.replicate 16 0 ++ [124, 0, 0, 0, 8, 0, 0, 0] ++ List.replicate 96 0 ++
  [255, 255, 255, 255, 0, 0, 0, 0]

/-- The empty level produced by loading `okStream`. -/
def emptyBSP : LoadedBSP :=
  { entities := [], numPlanes := 0, miptex := emptyMiptex, numVertices := 0, visdataSize := 0,
    numNodes := 0, numTexinfo := 0, numFaces := 0, lightingSize := 0, numClipnodes := 0,
    numLeaves := 0, facelistCount := 0, numEdges := 0, surfedgesCount := 0, numModels := 0 }

/-- A loaded level with one entity carrying a duplicated key, used to witness
first-match lookup. -/
def dupBSP : LoadedBSP :=
  { emptyBSP with
    entities := [[("classname", "light"), ("classname", "dup"), ("origin", "0 0 0")]] }

/-- The directory decoded from the two-entry miptexture lump whose offsets
are the invalid values -1 and 9999999 (the spec's componentwise-tolerance
example). -/
def badOffsetsDir : MiptexDir :=
  { nummiptex := 2, offsets := [-1, 9999999], views := [none, none], rawSize := 12 }

/-! ## Helper lemmas -/

theorem rbind_ok {α β : Type} {x : R α} {f : α → Nat → R β} {b : β} {a : Nat}
    (h : rbind x f = .ok b a) : ∃ v a', x = .ok v a' ∧ f v a' = .ok b a := by
  cases x with
  | ok v a' => exact ⟨v, a', rfl, h⟩
  | fail _ => exact absurd h (by simp [rbind])
  | ub => exact absurd h (by simp [rbind])
  | spin => exact absurd h (by simp [rbind])

theorem addAllocs_ok {α : Type} {k : Nat} {x : R α} {b : α} {a : Nat}
    (h : addAllocs k x = .ok b a) : ∃ a', x = .ok b a' ∧ a = k + a' := by
  cases x with
  | ok v a' =>
    simp only [addAllocs] at h
    cases h
    exact ⟨a', rfl, rfl⟩
  | fail _ => exact absurd h (by simp [addAllocs])
  | ub => exact absurd h (by simp [addAllocs])
  | spin => exact absurd h (by simp [addAllocs])

theorem read_fixed_count {alloc : Nat → Bool} {rs T : Nat} {l : Lump} {c a : Nat}
    (h : read_fixed alloc rs T l = .ok c a) : c = l.length.toNat / rs := by
  unfold read_fixed at h
  split at h
  next hle =>
    cases h
    simp [Int.toNat_of_nonpos hle]
  next =>
    split at h
    next => exact absurd h (by simp)
    next =>
      split at h
      next hz =>
        cases h
        omega
      next =>
        split at h
        next => exact absurd h (by simp)
        next =>
          split at h
          next => cases h; rfl
          next => exact absurd h (by simp)

/-! ## Claim theorems -/

/-- Claim C5: for every fixed-record lump with positive declared length and a
nonnegative offset, if fewer than `count * record_size` bytes exist in the
stream at the lump's offset, the decoder fails (and `bsp_load_file` in turn
returns 0); a short read is never accepted as success. -/
theorem c5_short_read_fails (alloc : Nat → Bool) (rs T : Nat) (l : Lump)
    (hlen : 0 < l.length) (hoff : 0 ≤ l.offset)
    (hcount : 0 < l.length.toNat / rs)
    (hshort : T < l.offset.toNat + l.length.toNat / rs * rs) :
    (read_fixed alloc rs T l).isFail = true := by
  unfold read_fixed
  rw [if_neg (by omega), if_neg (by omega), if_neg (by omega)]
  split
  · rfl
  · rw [if_neg (by omega)]
    rfl

/-- Witness for C5: a planes lump declaring 20 bytes at offset 0 of a 10-byte
stream makes the decoder fail even though the allocator grants everything. -/
theorem c5_short_read_fails_witness :
    (read_fixed grantAll planeRecordSize 10 { offset := 0, length := 20 }).isFail = true :=
  c5_short_read_fails grantAll planeRecordSize 10 { offset := 0, length := 20 }
    (by decide) (by decide) (by decide) (by decide)

/-- Claim C7: whenever the header's version field differs from the supported
constant 29, `bsp_load_file` fails immediately: no lump decoder runs (the
result is the same for every stream with such a header and every allocator)
and the allocator granted zero allocations during the call, so no memory
remains allocated. -/
theorem c7_version_mismatch (alloc : Nat → Bool) (stream : List Nat)
    (hlen : headerSize ≤ stream.length) (hver : int32At stream 0 ≠ bspVersion) :
    bsp_load alloc stream = .fail 0 := by
  unfold bsp_load
  rw [if_neg (by omega), if_pos hver]

/-- Witness for C7: a header with version 30 makes the load fail with zero
allocations. -/
theorem c7_version_mismatch_witness : bsp_load grantAll badVerStream = .fail 0 :=
  c7_version_mismatch grantAll badVerStream (by decide) (by decide)

/-- Claim C8: a lump descriptor with zero byte length makes every decoder
succeed with the empty/default result and zero further allocations, never a
failure: the fixed-record decoders return a null array and zero count, the
blob readers an empty buffer, the entity reader no entities, and the
miptexture reader the empty directory. -/
theorem c8_zero_length_empty (alloc : Nat → Bool) (stream : List Nat) (rs T : Nat) (l : Lump)
    (h : l.length = 0) :
    read_fixed alloc rs T l = .ok 0 0 ∧ read_blob alloc T l = .ok 0 0 ∧
    read_entities alloc stream l = .ok [] 0 ∧ read_miptex alloc stream l = .ok emptyMiptex 0 := by
  have hle : l.length ≤ 0 := le_of_eq h
  exact ⟨by unfold read_fixed; rw [if_pos hle],
         by unfold read_blob; rw [if_pos hle],
         by unfold read_entities; rw [if_pos hle],
         by unfold read_miptex; rw [if_pos hle]⟩

/-- Witness for C8: all four decoder shapes succeed with the empty result on a
zero-length descriptor. -/
theorem c8_zero_length_empty_witness :
    read_fixed grantAll planeRecordSize 0 { offset := 0, length := 0 } = .ok 0 0 ∧
    read_blob grantAll 0 { offset := 0, length := 0 } = .ok 0 0 ∧
    read_entities grantAll [] { offset := 0, length := 0 } = .ok [] 0 ∧
    read_miptex grantAll [] { offset := 0, length := 0 } = .ok emptyMiptex 0 :=
  c8_zero_length_empty grantAll [] planeRecordSize 0 { offset := 0, length := 0 } (by decide)

/-- Claim C6: on every successful load, each fixed-record lump's decoded
element count is the lump's declared byte length divided by its record size
with truncating integer division; a length that is not an exact multiple is
not an error, the trailing partial record is dropped (a negative length has
`toNat` zero and yields count zero through the absent-lump branch). -/
theorem c6_counts_div (alloc : Nat → Bool) (stream : List Nat) (b : LoadedBSP) (a : Nat)
    (h : bsp_load alloc stream = .ok b a) :
    b.numPlanes = (lumpAt stream 1).length.toNat / planeRecordSize ∧
    b.numVertices = (lumpAt stream 3).length.toNat / vertexRecordSize ∧
    b.numNodes = (lumpAt stream 5).length.toNat / nodeRecordSize ∧
    b.numTexinfo = (lumpAt stream 6).length.toNat / texinfoRecordSize ∧
    b.numFaces = (lumpAt stream 7).length.toNat / faceRecordSize ∧
    b.numClipnodes = (lumpAt stream 9).length.toNat / clipnodeRecordSize ∧
    b.numLeaves = (lumpAt stream 10).length.toNat / leafRecordSize ∧
    b.facelistCount = (lumpAt stream 11).length.toNat / facelistRecordSize ∧
    b.numEdges = (lumpAt stream 12).length.toNat / edgeRecordSize ∧
    b.surfedgesCount = (lumpAt stream 13).length.toNat / surfedgeRecordSize ∧
    b.numModels = (lumpAt stream 14).length.toNat / modelRecordSize := by
  unfold bsp_load at h
  split at h
  next => exact absurd h (by simp)
  next =>
    split at h
    next => exact absurd h (by simp)
    next =>
      obtain ⟨ents, a0, e0, h⟩ := rbind_ok h
      obtain ⟨r0, h, _⟩ := addAllocs_ok h
      obtain ⟨nP, a1, e1, h⟩ := rbind_ok h
      obtain ⟨r1, h, _⟩ := addAllocs_ok h
      obtain ⟨mt, a2, e2, h⟩ := rbind_ok h
      obtain ⟨r2, h, _⟩ := addAllocs_ok h
      obtain ⟨nV, a3, e3, h⟩ := rbind_ok h
      obtain ⟨r3, h, _⟩ := addAllocs_ok h
      obtain ⟨vs, a4, e4, h⟩ := rbind_ok h
      obtain ⟨r4, h, _⟩ := addAllocs_ok h
      obtain ⟨nN, a5, e5, h⟩ := rbind_ok h
      obtain ⟨r5, h, _⟩ := addAllocs_ok h
      obtain ⟨nT, a6, e6, h⟩ := rbind_ok h
      obtain ⟨r6, h, _⟩ := addAllocs_ok h
      obtain ⟨nF, a7, e7, h⟩ := rbind_ok h
      obtain ⟨r7, h, _⟩ := addAllocs_ok h
      obtain ⟨ls, a8, e8, h⟩ := rbind_ok h
      obtain ⟨r8, h, _⟩ := addAllocs_ok h
      obtain ⟨nC, a9, e9, h⟩ := rbind_ok h
      obtain ⟨r9, h, _⟩ := addAllocs_ok h
      obtain ⟨nL, a10, e10, h⟩ := rbind_ok h
      obtain ⟨r10, h, _⟩ := addAllocs_ok h
      obtain ⟨nFl, a11, e11, h⟩ := rbind_ok h
      obtain ⟨r11, h, _⟩ := addAllocs_ok h
      obtain ⟨nE, a12, e12, h⟩ := rbind_ok h
      obtain ⟨r12, h, _⟩ := addAllocs_ok h
      obtain ⟨nS, a13, e13, h⟩ := rbind_ok h
      obtain ⟨r13, h, _⟩ := addAllocs_ok h
      obtain ⟨nM, a14, e14, h⟩ := rbind_ok h
      obtain ⟨r14, h, _⟩ := addAllocs_ok h
      injection h with hb _
      subst hb
      exact ⟨read_fixed_count e1, read_fixed_count e3, read_fixed_count e5,
             read_fixed_count e6, read_fixed_count e7, read_fixed_count e9,
             read_fixed_count e10, read_fixed_count e11, read_fixed_count e12,
             read_fixed_count e13, read_fixed_count e14⟩

/-- Witness for C6: loading the all-empty valid stream succeeds and the
planes count is the declared length divided by the plane record size. -/
theorem c6_counts_div_witness :
    bsp_load grantAll okStream = .ok emptyBSP 0 ∧
    emptyBSP.numPlanes = (lumpAt okStream 1).length.toNat / planeRecordSize :=
  ⟨by decide, (c6_counts_div grantAll okStream emptyBSP 0 (by decide)).1⟩

theorem getPropLoop_first (pre : List (String × String)) (k v : String)
    (rest : List (String × String)) (hpre : ∀ q ∈ pre, q.1 ≠ k) :
    getPropLoop (pre ++ (k, v) :: rest) k = some v := by
  induction pre with
  | nil => simp [getPropLoop]
  | cons q qs ih =>
    have hq : q.1 ≠ k := hpre q (List.mem_cons_self q qs)
    simp only [List.cons_append, getPropLoop, if_neg hq]
    exact ih fun r hr => hpre r (List.mem_cons_of_mem q hr)

theorem getPropLoop_not_found (props : List (String × String)) (k : String)
    (h : ∀ q ∈ props, q.1 ≠ k) : getPropLoop props k = none := by
  induction props with
  | nil => rfl
  | cons q qs ih =>
    simp only [getPropLoop, if_neg (h q (List.mem_cons_self q qs))]
    exact ih fun r hr => h r (List.mem_cons_of_mem q hr)

/-- Claim C9: `bsp_entity_get_property` returns null for an out-of-range
entity index; for a valid index it returns the value of the first property
in file order whose key equals the requested key — duplicate keys later in
the entity are never returned — and null when no property has that key. -/
theorem c9_get_property_first_match (b : LoadedBSP) (i : Nat) (k : String) :
    (b.entities.length ≤ i → bsp_entity_get_property b i k = none) ∧
    (∀ props, b.entities.get? i = some props →
      (∀ pre v rest, props = pre ++ (k, v) :: rest → (∀ q ∈ pre, q.1 ≠ k) →
        bsp_entity_get_property b i k = some v) ∧
      ((∀ q ∈ props, q.1 ≠ k) → bsp_entity_get_property b i k = none)) := by
  constructor
  · intro hi
    unfold bsp_entity_get_property
    rw [List.get?_eq_none.mpr hi]
  · intro props hp
    constructor
    · intro pre v rest hsplit hpre
      unfold bsp_entity_get_property
      rw [hp, hsplit]
      exact getPropLoop_first pre k v rest hpre
    · intro hnone
      unfold bsp_entity_get_property
      rw [hp]
      exact getPropLoop_not_found props k hnone

/-- Witness for C9: the first of two properties sharing the key is returned,
an absent key gives null, and an out-of-range entity index gives null. -/
theorem c9_get_property_first_match_witness :
    bsp_entity_get_property dupBSP 0 "classname" = some "light" ∧
    bsp_entity_get_property dupBSP 0 "missing" = none ∧
    bsp_entity_get_property dupBSP 3 "classname" = none := by
  refine ⟨?_, ?_, ?_⟩
  · exact ((c9_get_property_first_match dupBSP 0 "classname").2 _ rfl).1 []
      "light" [("classname", "dup"), ("origin", "0 0 0")] rfl (by intro q hq; cases hq)
  · exact ((c9_get_property_first_match dupBSP 0 "missing").2 _ rfl).2 (by decide)
  · exact (c9_get_property_first_match dupBSP 3 "classname").1 (by decide)

theorem int32OfBytes_range (b0 b1 b2 b3 : Nat) :
    -2147483648 ≤ int32OfBytes b0 b1 b2 b3 ∧ int32OfBytes b0 b1 b2 b3 < 2147483648 := by
  unfold int32OfBytes
  have h0 : b0 % 256 < 256 := Nat.mod_lt _ (by decide)
  have h1 : b1 % 256 < 256 := Nat.mod_lt _ (by decide)
  have h2 : b2 % 256 < 256 := Nat.mod_lt _ (by decide)
  have h3 : b3 % 256 < 256 := Nat.mod_lt _ (by decide)
  split <;> constructor <;> omega

theorem usize_of_neg {n : Int} (hlo : -2147483648 ≤ n) (hhi : n < 0) :
    usize n = (n + 18446744073709551616).toNat := by
  unfold usize
  congr 1
  omega

theorem usize_of_nonneg {n : Int} (hlo : 0 ≤ n) (hhi : n < 2147483648) :
    usize n = n.toNat := by
  unfold usize
  congr 1
  omega

theorem read_int32s_length (k : Nat) (bs : List Nat) (h : 4 * k ≤ bs.length) :
    (read_int32s k bs).length = k := by
  induction k generalizing bs with
  | zero => rfl
  | succ k ih =>
    cases bs with
    | nil => simp at h
    | cons b0 t0 =>
      cases t0 with
      | nil => simp at h; omega
      | cons b1 t1 =>
        cases t1 with
        | nil => simp at h; omega
        | cons b2 t2 =>
          cases t2 with
          | nil => simp at h; omega
          | cons b3 rest =>
            simp only [read_int32s, List.length_cons]
            rw [ih rest (by simp [List.length_cons] at h; omega)]

theorem dir_phase_neg2 (alloc : Nat → Bool) (raw : List Nat)
    (hn : int32At raw 0 ≤ -2) (hraw : raw.length ≤ 2147483648) :
    miptex_dir_phase alloc raw = .fail 0 := by
  have hlo := (int32OfBytes_range (raw.getD 0 0) (raw.getD 1 0) (raw.getD 2 0) (raw.getD 3 0)).1
  have hu : usize (int32At raw 0) = (int32At raw 0 + 2 ^ 64).toNat :=
    usize_of_neg (by simpa [int32At] using hlo) (by omega)
  unfold miptex_dir_phase
  split
  next => rfl
  next h4 =>
    rw [if_pos ?_]
    rw [hu]
    have hlo' : -2147483648 ≤ int32At raw 0 := by simpa [int32At] using hlo
    omega

theorem dir_phase_neg1_checkzero {n : Int} (hn : n = -1) :
    (4 + usize n * 4 % 18446744073709551616) % 18446744073709551616 = 0 := by
  subst hn
  decide

theorem dir_phase_neg1 (alloc : Nat → Bool) (raw : List Nat)
    (hn : int32At raw 0 = -1) (h4 : 4 ≤ raw.length) (hraw : raw.length ≤ 2147483648) :
    (alloc (18446744073709551612) = false → miptex_dir_phase alloc raw = .fail 0) ∧
    (alloc (18446744073709551612) = true → miptex_dir_phase alloc raw = .ub) := by
  have hu : usize (int32At raw 0) = 18446744073709551615 := by rw [hn]; decide
  have hob : usize (int32At raw 0) * 4 % 18446744073709551616 = 18446744073709551612 := by rw [hu]
  have hds : (4 + usize (int32At raw 0) * 4 % 18446744073709551616) % 18446744073709551616 = 0 := by rw [hu]
  constructor
  · intro hA
    have hA' : alloc (usize (int32At raw 0) * 4 % 18446744073709551616) = false := by rw [hob]; exact hA
    unfold miptex_dir_phase
    rw [if_neg (by omega), hds, if_neg (by omega),
        if_pos ⟨by simp [hA'], by rw [hn]; decide⟩]
  · intro hA
    have hA' : alloc (usize (int32At raw 0) * 4 % 18446744073709551616) = true := by rw [hob]; exact hA
    unfold miptex_dir_phase
    rw [if_neg (by omega), hds, if_neg (by omega),
        if_neg (by simp [hA']), if_pos (by rw [hob]; omega)]

theorem dir_phase_neg_not_ok (alloc : Nat → Bool) (raw : List Nat)
    (hn : int32At raw 0 < 0) (hraw : raw.length ≤ 2147483648) (d : MiptexDir) (a : Nat) :
    miptex_dir_phase alloc raw ≠ .ok d a := by
  rcases lt_or_ge (int32At raw 0) (-1) with hlt | hge
  · rw [dir_phase_neg2 alloc raw (by omega) hraw]
    simp
  · have hm1 : int32At raw 0 = -1 := by omega
    rcases lt_or_ge raw.length 4 with h4 | h4
    · unfold miptex_dir_phase
      rw [if_pos h4]
      simp
    · obtain ⟨hf, hub⟩ := dir_phase_neg1 alloc raw hm1 h4 hraw
      cases hA : alloc (18446744073709551612) with
      | false => rw [hf hA]; simp
      | true => rw [hub hA]; simp

theorem resolve_view_none_iff (L : Nat) (off : Int) :
    resolve_view L off = none ↔ (off ≤ 0 ∨ L ≤ off.toNat ∨ L < off.toNat + miptexHeaderSize) := by
  unfold resolve_view
  split_ifs with h1 h2 h3 <;> simp_all

theorem resolve_view_present (L : Nat) (off : Int)
    (h1 : 0 < off) (h2 : off.toNat < L) (h3 : off.toNat + miptexHeaderSize ≤ L) :
    resolve_view L off = some off.toNat := by
  unfold resolve_view
  rw [if_neg (by omega), if_neg (by omega), if_neg (by omega)]

theorem dir_phase_ok (alloc : Nat → Bool) (raw : List Nat) (d : MiptexDir) (a : Nat)
    (hraw : raw.length ≤ 2147483648) (h : miptex_dir_phase alloc raw = .ok d a) :
    0 ≤ d.nummiptex ∧ d.rawSize = raw.length ∧
    d.offsets.length = d.nummiptex.toNat ∧
    d.views = d.offsets.map (resolve_view raw.length) := by
  by_cases hneg : int32At raw 0 < 0
  · exact absurd h (dir_phase_neg_not_ok alloc raw hneg hraw d a)
  · push_neg at hneg
    have hhi := (int32OfBytes_range (raw.getD 0 0) (raw.getD 1 0) (raw.getD 2 0) (raw.getD 3 0)).2
    have hhi' : int32At raw 0 < 2147483648 := by simpa [int32At] using hhi
    have hu : usize (int32At raw 0) = (int32At raw 0).toNat := usize_of_nonneg hneg hhi'
    unfold miptex_dir_phase at h
    rw [hu] at h
    split at h
    next => exact absurd h (by simp)
    next h4 =>
      split at h
      next => exact absurd h (by simp)
      next hdir =>
        split at h
        next => exact absurd h (by simp)
        next =>
          split at h
          next => exact absurd h (by simp)
          next =>
            split at h
            next => exact absurd h (by simp)
            next =>
              injection h with hd _
              subst hd
              have htn : (int32At raw 0).toNat < 2147483648 := by omega
              have hdir' : 4 + (int32At raw 0).toNat * 4 ≤ raw.length := by
                rw [Nat.mod_eq_of_lt (by omega), Nat.mod_eq_of_lt (by omega)] at hdir
                omega
              refine ⟨hneg, rfl, ?_, rfl⟩
              exact read_int32s_length _ _ (by simp [List.length_drop]; omega)

/-- Claim C4: after a successful decode of a non-empty miptexture lump, the
directory count is nonnegative, the offset and view arrays have exactly that
many slots, and slot `i` is absent exactly when its offset is non-positive,
at or past the blob's total length, or would place the fixed-size texture
header past the blob's end; otherwise the slot aliases the header in place at
that blob offset.  Individually invalid offsets only produce absent views and
never make the decode fail. -/
theorem c4_miptex_views (alloc : Nat → Bool) (stream : List Nat) (l : Lump) (d : MiptexDir)
    (a : Nat) (hs : stream.length ≤ 2147483648) (h : read_miptex alloc stream l = .ok d a) :
    0 ≤ d.nummiptex ∧
    d.offsets.length = d.nummiptex.toNat ∧
    d.views.length = d.nummiptex.toNat ∧
    (∀ i off, d.offsets.get? i = some off →
      (d.views.get? i = some none ↔
        (off ≤ 0 ∨ d.rawSize ≤ off.toNat ∨ d.rawSize < off.toNat + miptexHeaderSize)) ∧
      (0 < off → off.toNat < d.rawSize → off.toNat + miptexHeaderSize ≤ d.rawSize →
        d.views.get? i = some (some off.toNat))) := by
  unfold read_miptex at h
  split at h
  next =>
    cases h
    refine ⟨by decide, rfl, rfl, ?_⟩
    intro i off hoff
    have hnone : emptyMiptex.offsets.get? i = none := by cases i <;> rfl
    rw [hnone] at hoff
    cases hoff
  next =>
    split at h
    next => exact absurd h (by simp)
    next =>
      split at h
      next => exact absurd h (by simp)
      next =>
        split at h
        next => exact absurd h (by simp)
        next =>
          split at h
          next d' a' hphase =>
            injection h with hd _
            subst hd
            have hrawlen : ((stream.drop l.offset.toNat).take l.length.toNat).length ≤ 2147483648 := by
              calc ((stream.drop l.offset.toNat).take l.length.toNat).length
                  ≤ (stream.drop l.offset.toNat).length := by
                    rw [List.length_take]
                    exact min_le_right _ _
                _ ≤ stream.length := by rw [List.length_drop]; omega
                _ ≤ 2147483648 := hs
            generalize hgen : (stream.drop l.offset.toNat).take l.length.toNat = raw at hphase hrawlen
            obtain ⟨hn0, hsz, hlen, hviews⟩ := dir_phase_ok alloc raw d' a' hrawlen hphase
            refine ⟨hn0, hlen, ?_, ?_⟩
            · rw [hviews, List.length_map, hlen]
            · intro i off hoff
              rw [hsz, hviews]
              have hmap : (d'.offsets.map (resolve_view raw.length)).get? i =
                  some (resolve_view raw.length off) := by
                rw [List.get?_map, hoff]
                rfl
              rw [hmap]
              constructor
              · simp only [Option.some.injEq]
                exact resolve_view_none_iff raw.length off
              · intro h1 h2 h3
                rw [resolve_view_present raw.length off h1 h2 h3]
          next => exact absurd h (by simp)
          next => exact absurd h (by simp)
          next => exact absurd h (by simp)

/-- Witness for C4: a 12-byte miptexture lump with directory count 2 and the
two invalid offsets -1 and 9999999 decodes successfully and both resolved
views are absent. -/
theorem c4_miptex_views_witness :
    read_miptex grantAll [2, 0, 0, 0, 255, 255, 255, 255, 127, 150, 152, 0]
        { offset := 0, length := 12 } = .ok badOffsetsDir 3 ∧
    badOffsetsDir.views.get? 0 = some none ∧
    badOffsetsDir.views.get? 1 = some none := by
  refine ⟨by decide, ?_, ?_⟩
  · exact ((c4_miptex_views grantAll [2, 0, 0, 0, 255, 255, 255, 255, 127, 150, 152, 0]
      { offset := 0, length := 12 } badOffsetsDir 3 (by decide) (by decide)).2.2.2 0 (-1)
      (by decide)).1.mpr (by decide)
  · exact ((c4_miptex_views grantAll [2, 0, 0, 0, 255, 255, 255, 255, 127, 150, 152, 0]
      { offset := 0, length := 12 } badOffsetsDir 3 (by decide) (by decide)).2.2.2 1 9999999
      (by decide)).1.mpr (by decide)

/-- Counterexample to claim C10 as stated: a miptexture lump whose first four
bytes decode to the directory count -1 does not make `bsp_load_file` return
0 under an allocator that grants the wrapped huge request; the truncation
check wraps to 0 and passes, and the directory copy then reads far past the
blob's end — undefined behaviour instead of the claimed failure. -/
theorem c10_counterexample_minus_one : bsp_load grantAll negMiptexStream = .ub := by decide

/-- Claim C10 (amended): for a directory count `N` read as -2 or below, the
truncated-directory check `4 + (size_t)N * 4`, computed with wraparound
arithmetic modulo 2^64, exceeds every real blob length and the decode fails.
For `N = -1` the expression wraps around to exactly 0, so the check passes;
the decode then fails only if the allocator refuses the wrapped request of
2^64 - 4 bytes for the offset array, and if the allocator grants it the
offsets copy reads past the blob (undefined behaviour).  In every case a
negative count never resolves to a successful directory. -/
theorem c10_amended_wraparound (alloc : Nat → Bool) (raw : List Nat)
    (hraw : raw.length ≤ 2147483648) :
    (int32At raw 0 ≤ -2 → miptex_dir_phase alloc raw = .fail 0) ∧
    (int32At raw 0 = -1 →
      (4 + usize (int32At raw 0) * 4 % 18446744073709551616) % 18446744073709551616 = 0 ∧
      (4 ≤ raw.length →
        (alloc 18446744073709551612 = false → miptex_dir_phase alloc raw = .fail 0) ∧
        (alloc 18446744073709551612 = true → miptex_dir_phase alloc raw = .ub))) ∧
    (int32At raw 0 < 0 → ∀ d a, miptex_dir_phase alloc raw ≠ .ok d a) :=
  ⟨fun hn => dir_phase_neg2 alloc raw hn hraw,
   fun hn => ⟨dir_phase_neg1_checkzero hn, fun h4 => dir_phase_neg1 alloc raw hn h4 hraw⟩,
   fun hn d a => dir_phase_neg_not_ok alloc raw hn hraw d a⟩

/-- Witness for C10 (amended): count -2 fails the wrapped check outright;
count -1 passes it and ends in the out-of-bounds copy when the allocator
grants the wrapped request. -/
theorem c10_amended_wraparound_witness :
    miptex_dir_phase grantAll [254, 255, 255, 255] = .fail 0 ∧
    miptex_dir_phase grantAll [255, 255, 255, 255] = .ub :=
  ⟨(c10_amended_wraparound grantAll [254, 255, 255, 255] (by decide)).1 (by decide),
   (((c10_amended_wraparound grantAll [255, 255, 255, 255] (by decide)).2.1
      (by decide)).2 (by decide)).2 rfl⟩

/-- Counterexample to claim C1 as stated: the planes descriptor of
`negLenStream` has offset 0 and length -4, yet `bsp_load_file` succeeds and
stores zero planes: a negative length is treated as an absent lump exactly
like a zero length, not as a hard decode failure. -/
theorem c1_counterexample_negative_length_loads :
    bsp_load grantAll negLenStream = .ok emptyBSP 0 := by decide

/-- Claim C1 (amended): a lump descriptor with a negative offset and a
positive length is a hard decode failure for every decoder shape, and such a
failure makes `bsp_load_file` return 0; a negative length, like a zero
length, is treated as an absent lump and yields the empty/default result. -/
theorem c1_amended_negative_geometry (alloc : Nat → Bool) (stream : List Nat) (rs T : Nat)
    (l : Lump) :
    (l.length < 0 →
      read_fixed alloc rs T l = .ok 0 0 ∧ read_blob alloc T l = .ok 0 0 ∧
      read_entities alloc stream l = .ok [] 0 ∧ read_miptex alloc stream l = .ok emptyMiptex 0) ∧
    (0 < l.length → l.offset < 0 →
      read_fixed alloc rs T l = .fail 0 ∧ read_blob alloc T l = .fail 0 ∧
      read_entities alloc stream l = .fail 0 ∧ read_miptex alloc stream l = .fail 0) ∧
    (headerSize ≤ stream.length → int32At stream 0 = bspVersion →
      (lumpAt stream 0).length ≤ 0 → (lumpAt stream 1).offset < 0 →
      0 < (lumpAt stream 1).length → bsp_load alloc stream = .fail 0) := by
  refine ⟨?_, ?_, ?_⟩
  · intro hneg
    have hle : l.length ≤ 0 := le_of_lt hneg
    exact ⟨by unfold read_fixed; rw [if_pos hle],
           by unfold read_blob; rw [if_pos hle],
           by unfold read_entities; rw [if_pos hle],
           by unfold read_miptex; rw [if_pos hle]⟩
  · intro hpos hoff
    refine ⟨?_, ?_, ?_, ?_⟩
    · unfold read_fixed; rw [if_neg (by omega), if_pos hoff]
    · unfold read_blob; rw [if_neg (by omega), if_pos hoff]
    · unfold read_entities; rw [if_neg (by omega), if_pos hoff]
    · unfold read_miptex; rw [if_neg (by omega), if_pos hoff]
  · intro hhdr hver hent hoff hlen
    have hE : read_entities alloc stream (lumpAt stream 0) = .ok [] 0 := by
      unfold read_entities; rw [if_pos hent]
    have hP : read_fixed alloc planeRecordSize stream.length (lumpAt stream 1) = .fail 0 := by
      unfold read_fixed; rw [if_neg (by omega), if_pos hoff]
    unfold bsp_load
    rw [if_neg (by omega), if_neg (by simp [hver]), hE]
    simp only [rbind]
    rw [hP]
    rfl

/-- Witness for C1 (amended): a negative length yields the empty result, a
negative offset with positive length fails the decoder, and a full load with
a negative planes offset fails with zero allocations. -/
theorem c1_amended_negative_geometry_witness :
    read_fixed grantAll planeRecordSize 100 { offset := 0, length := -4 } = .ok 0 0 ∧
    read_fixed grantAll planeRecordSize 100 { offset := -1, length := 20 } = .fail 0 ∧
    bsp_load grantAll negOffStream = .fail 0 :=
  ⟨((c1_amended_negative_geometry grantAll [] planeRecordSize 100
      { offset := 0, length := -4 }).1 (by decide)).1,
   ((c1_amended_negative_geometry grantAll [] planeRecordSize 100
      { offset := -1, length := 20 }).2.1 (by decide) (by decide)).1,
   (c1_amended_negative_geometry grantAll negOffStream planeRecordSize 100
      { offset := 0, length := 0 }).2.2 (by decide) (by decide) (by decide) (by decide)
      (by decide)⟩

/-- Claim C2 (code bug): on an entities lump holding an opening brace, a
complete key string and an unterminated value string, the parser does not
abort only the current pair and keep scanning: `parse_string` returns NULL,
the inner loop breaks with the scan pointer NULL, and the closing-brace test
after the loop dereferences that NULL pointer — undefined behaviour, modelled
as the `R.ub` outcome. -/
theorem c2_unterminated_quote_is_ub :
    read_entities grantAll [123, 34, 107, 34, 32, 34, 118] { offset := 0, length := 7 } = .ub := by
  decide

/-- Claim C3 (code bug): a planes lump declaring 20 bytes at offset 124 of a
124-byte stream makes `read_planes` fail after its array (allocation
identity 7) was allocated and stored in the planes field; the failing load
runs `bsp_cleanup`, which frees the array but leaves the field set, so the
caller's subsequent `bsp_destroy` frees the same allocation a second time:
teardown is not idempotent and the allocation is released twice, not exactly
once. -/
theorem c3_failed_load_then_destroy_double_free :
    read_planes_state 124 { offset := 124, length := 20 } initState 7 =
      (false, { initState with planes := some 7 }) ∧
    (load_fail_then_destroy_frees { initState with planes := some 7 }).count 7 = 2 := by
  decide

end LibBSP
